import Mathlib

/-!
Verification development for the Indeed CSV downloader (src/main.py).

The Python program drives a headless browser to log in, locate a CSV
export, and deliver it to a key-value store and an optional webhook.
Every external effect (DOM query, click, fill, HTTP request, key-value
operation, download event) is modelled by an explicit oracle describing
that one call's outcome, and each Python function becomes a total Lean
function over those oracles.  Exceptions raised by a foreign call are an
oracle outcome; a Python `try/except` becomes the corresponding case
split, so a Lean result models "the function returned" and exception
propagation is modelled by explicit error results.  Wall-clock values
(`time.time()` deltas) are abstracted away; `asyncio.sleep` calls are
recorded as trace events carrying their duration argument.
-/

namespace IndeedCsv

/-- Outcome of one `page.query_selector(sel)` call followed (when the
element exists) by the action (`page.fill` / `page.click`) on that same
selector: the query itself may raise, may find nothing, or may find an
element after which the action either raises or completes.
(src/main.py lines 97-104 and 109-116.) -/
inductive QueryResult where
  | raises : QueryResult
  | absent : QueryResult
  | found : (actionRaises : Bool) → QueryResult
deriving DecidableEq, Repr

/-- The query found an element (no matter whether the follow-up action
would raise); used by query-only call sites such as `check_login_status`. -/
def isElement : QueryResult → Bool
  | QueryResult.found _ => true
  | _ => false

/-- The query found an element and the follow-up action completed
without raising: the case in which the source returns `True`. -/
def isHit : QueryResult → Bool
  | QueryResult.found false => true
  | _ => false

/-- src/main.py lines 95-105 (`try_fill`): walk the selector list; a
raising query, a missing element, and a raising `page.fill` all fall
through to the next selector (the `except Exception: continue`), and the
first selector whose element exists and whose fill completes returns
`True`; an exhausted list returns `False`.  The `page` oracle gives each
selector's outcome; `value` is the text passed to `page.fill`. -/
def try_fill (page : String → QueryResult) (selectors : List String) (value : String) : Bool :=
  match selectors with
  | [] => false
  | selector :: rest =>
    match page selector with
    | QueryResult.found false => true
    | _ => try_fill page rest value

/-- src/main.py lines 107-117 (`try_click`): identical cascade with
`page.click` as the action. -/
def try_click (page : String → QueryResult) (selectors : List String) : Bool :=
  match selectors with
  | [] => false
  | selector :: rest =>
    match page selector with
    | QueryResult.found false => true
    | _ => try_click page rest

/-- The function `try_fill` instrumented with the list of selectors it examined, in
the order the source's `for` loop examines them (the loop stops at the
first selector whose element exists and whose fill completes). -/
def try_fill_trace (page : String → QueryResult) (selectors : List String) (value : String) :
    Bool × List String :=
  match selectors with
  | [] => (false, [])
  | selector :: rest =>
    match page selector with
    | QueryResult.found false => (true, [selector])
    | _ =>
      let r := try_fill_trace page rest value
      (r.1, selector :: r.2)

/-- The function `try_click` instrumented with the list of selectors it examined. -/
def try_click_trace (page : String → QueryResult) (selectors : List String) :
    Bool × List String :=
  match selectors with
  | [] => (false, [])
  | selector :: rest =>
    match page selector with
    | QueryResult.found false => (true, [selector])
    | _ =>
      let r := try_click_trace page rest
      (r.1, selector :: r.2)

/-- Specification-side cascade semantics, written from the spec's words
(section 4.1): try the strategies in order, succeed at the first hit and
examine nothing after it, and report failure after examining the whole
list when no strategy hits.  The claim compares the source functions
against this. -/
def cascadeSpec (hit : String → Bool) : List String → Bool × List String
  | [] => (false, [])
  | s :: rest =>
    if hit s then (true, [s])
    else
      let r := cascadeSpec hit rest
      (r.1, s :: r.2)

/-! ## Data model: run input, run configuration, run record -/

/-- Python's whitespace test used by `str.strip()`. -/
def isSpaceChar (c : Char) : Bool :=
  c == ' ' || c == '\t' || c == '\n' || c == '\r' || c == '\x0b' || c == '\x0c'

/-- Python's `str.strip()`: drop whitespace from both ends (structural
definition over the character list so it evaluates). -/
def pyStrip (s : String) : String :=
  String.mk (((s.toList.dropWhile isSpaceChar).reverse.dropWhile isSpaceChar).reverse)

/-- Python's `str.lower()` (structural definition over the character
list). -/
def lowerString (s : String) : String :=
  String.mk (s.toList.map Char.toLower)

/-- Python's `str.endswith(post)` (structural definition). -/
def endsWithStr (s post : String) : Bool :=
  post.toList.isSuffixOf s.toList

/-- Python's `str.startswith(pre)` (structural definition). -/
def startsWithStr (s p : String) : Bool :=
  p.toList.isPrefixOf s.toList

/-- The actor input dictionary (src/main.py line 424): every recognized
key may be absent, in which case `main_logic` substitutes its default. -/
structure InputData where
  start_urls : Option (List String) := none
  login_url : Option String := none
  indeed_username : Option String := none
  indeed_password : Option String := none
  n8n_webhook_url : Option String := none
  save_cookies : Option Bool := none
  download_filename : Option String := none
  max_retries : Option Int := none
  timeout : Option Nat := none
  csv_type : Option String := none
  job_id : Option String := none

/-- The `config` dictionary built at src/main.py lines 427-439.  The
field `csv_download_url` is `Option` because the downstream strategy
functions read that key with `config.get('csv_download_url', '')` — it
models dictionary-key presence, and `main_logic` builds the dictionary
without that key. -/
structure Config where
  start_urls : List String
  login_url : String
  username : String
  password : String
  n8n_webhook_url : String
  save_cookies : Bool
  download_filename : String
  max_retries : Int
  timeout : Nat
  csv_type : String
  job_id : String
  csv_download_url : Option String

/-- src/main.py lines 427-439: the configuration-building step of
`main_logic`, with the source's defaults.  Python's `.strip()` on the
webhook URL is `pyStrip`.  The dictionary literal contains no
`csv_download_url` key, so that field is `none`. -/
def buildConfig (input : InputData) : Config :=
  { start_urls := input.start_urls.getD ["https://employers.indeed.com/candidates"]
    login_url := input.login_url.getD "https://employers.indeed.com/"
    username := input.indeed_username.getD ""
    password := input.indeed_password.getD ""
    n8n_webhook_url := pyStrip (input.n8n_webhook_url.getD "")
    save_cookies := input.save_cookies.getD true
    download_filename := input.download_filename.getD "indeed-output.csv"
    max_retries := input.max_retries.getD 2
    timeout := input.timeout.getD 30000
    csv_type := input.csv_type.getD "candidates"
    job_id := input.job_id.getD ""
    csv_download_url := none }

/-- The record pushed to the dataset sink.  A success record carries the
fields built at src/main.py lines 511-521 (the real-time
`execution_time` field is abstracted away); a failure record carries the
`error` string of lines 444 and 541-545. -/
inductive RunRecord where
  | success : (csv_type : String) → (csv_filename : String) → (file_size : Option Nat) →
      (download_method : String) → (cookies_saved : Bool) → (webhook_sent : Bool) →
      (job_id : String) → RunRecord
  | failed : (error : String) → RunRecord
deriving DecidableEq, Repr

/-- The `/tmp/...` output path used by every acquisition strategy
(src/main.py lines 190, 232, 254, 288). -/
def outPath (cfg : Config) : String :=
  "/tmp/" ++ cfg.download_filename

/-! ## HTTP oracle -/

/-- Outcome of one outbound HTTP request (`aiohttp` GET or POST): the
call may raise (transport error, timeout) or produce a response with a
status code and a byte payload (bytes as `List Nat`). -/
inductive HttpResult where
  | raises : HttpResult
  | response : (status : Nat) → (content : List Nat) → HttpResult
deriving DecidableEq, Repr

/-! ## Acquisition strategy 1: direct URL fetch -/

/-- src/main.py lines 242-264 (`direct_download_by_url`): read
`csv_download_url` with default `''`; only when its lowercase form ends
in `.csv` issue a GET; a 200 response is written to the output path and
returned; any other status, or a raise anywhere (caught by the
enclosing `except`), yields `None`.  The second component records the
URLs actually fetched.  The local file write is modelled as succeeding
(a raise in it would also just yield `None`). -/
def direct_download_by_url (cfg : Config) (fetch : String → HttpResult) :
    Option String × List String :=
  let csv_url := cfg.csv_download_url.getD ""
  if endsWithStr (lowerString csv_url) ".csv" then
    match fetch csv_url with
    | HttpResult.raises => (none, [csv_url])
    | HttpResult.response status _ =>
      if status = 200 then (some (outPath cfg), [csv_url])
      else (none, [csv_url])
  else (none, [])

/-! ## Acquisition strategy 2: UI-driven download (click + listener) -/

/-- One download event in the UI-click strategy: `cause` is the index of
the trigger attempt whose click fired it, `arrival` the index of the
trigger attempt during whose 5-second `asyncio.sleep` window it is
delivered to the page's listeners (`cause ≤ arrival`; a slow download
can arrive during a later attempt's window). -/
structure DlEvent where
  cause : Nat
  arrival : Nat
deriving DecidableEq, Repr

/-- Oracle for `download_csv_via_click`: which trigger attempts find
their element, which clicks raise, which download events are delivered
when, and whether `download.save_as` plus the existence check succeed. -/
structure ClickEnv where
  present : Nat → Bool
  clickRaises : Nat → Bool
  events : List DlEvent
  saveOk : Bool

/-- src/main.py lines 78-84: `CONFIG['DOWNLOAD_BUTTON_TEXTS']`. -/
def DOWNLOAD_BUTTON_TEXTS : List String :=
  ["Download CSV", "Export CSV", "Export", "Download", "Export candidates"]

/-- src/main.py lines 199-210: the `selector_candidates` list of the
second phase of `download_csv_via_click`. -/
def selector_candidates : List String :=
  ["a[download]",
   "a[href$=\".csv\"]",
   "button[data-test*=\"export\"]",
   "button:has-text(\"Export\")",
   "button:has-text(\"Download\")",
   "a:has-text(\"Download CSV\")",
   ".export-button",
   ".download-button",
   "[data-testid=\"export\"]",
   "[data-testid=\"download\"]"]

/-- The full ordered list of trigger attempts of
`download_csv_via_click`: first the text buttons (clicked via the
`text="..."` selector, lines 169-196), then the generic selectors
(lines 212-238); the two loop bodies are identical, so they are
modelled as one indexed loop. -/
def downloadTriggers : List String :=
  DOWNLOAD_BUTTON_TEXTS.map (fun t => "text=\"" ++ t ++ "\"") ++ selector_candidates

/-- The loop body of src/main.py lines 169-238, one iteration per
trigger attempt `i`; `present i` is whether `page.query_selector` finds
the trigger element (a raising query, like a missing element, falls
through to the next trigger).  Key modelling point, read off the source: the
handler registered with `page.on('download', handle_download)` is never
unregistered, and each iteration rebinds a fresh `download_info = None`
closure slot.  The slot of attempt `i` is written by every download
event delivered after its registration and is read once, immediately
after attempt `i`'s `asyncio.sleep(5)`; hence attempt `i` observes a
download exactly when some event — regardless of which click caused
it — arrives during attempt `i`'s wait window.  The second result
component reports which attempt claimed the download. -/
def clickLoop (cfg : Config) (env : ClickEnv) : Nat → List String → Option String × Option Nat
  | _, [] => (none, none)
  | i, _trigger :: rest =>
    if env.present i then
      if env.clickRaises i then clickLoop cfg env (i + 1) rest
      else if env.events.any (fun e => e.arrival = i) then
        if env.saveOk then (some (outPath cfg), some i)
        else clickLoop cfg env (i + 1) rest
      else clickLoop cfg env (i + 1) rest
    else clickLoop cfg env (i + 1) rest

/-- src/main.py lines 164-240 (`download_csv_via_click`). -/
def download_csv_via_click (cfg : Config) (env : ClickEnv) : Option String × Option Nat :=
  clickLoop cfg env 0 downloadTriggers

/-! ## Acquisition strategy 3: link scan -/

/-- One anchor element: `get_attribute('href')` may return `None`. -/
structure Anchor where
  href : Option String
deriving DecidableEq, Repr

/-- Oracle for `scan_for_csv_links`: the page's anchor list, the page
URL used to absolutize relative hrefs, and the per-URL GET outcome. -/
structure ScanEnv where
  anchors : List Anchor
  pageUrl : String
  fetch : String → HttpResult

/-- Substring test over character lists (Python's `in` on strings). -/
def charsHave (needle : List Char) : List Char → Bool
  | [] => needle.isEmpty
  | c :: rest =>
    (needle.isPrefixOf (c :: rest)) || charsHave needle rest

/-- Python's `needle in hay` for strings. -/
def containsSub (needle hay : String) : Bool :=
  charsHave needle.toList hay.toList

/-- src/main.py lines 275-280: absolutize the href — already-absolute
(`startswith('http')`) hrefs pass through, others are joined as
`base.rstrip('/') + '/' + href.lstrip('/')` against the page URL. -/
def resolveLink (pageUrl href : String) : String :=
  if startsWithStr href "http" then href
  else String.mk ((pageUrl.toList.reverse.dropWhile (fun c => c == '/')).reverse) ++ "/" ++
    String.mk (href.toList.dropWhile (fun c => c == '/'))

/-- The anchor loop of src/main.py lines 270-294.  Per anchor: skip it
unless its href is non-empty and contains `.csv`; otherwise GET the
resolved URL.  A raise aborts the whole scan (the `try` wraps the loop,
so the `except` at line 295 returns `None`).  A 200 response whose
payload is strictly longer than 50 bytes is written out and returned;
any other status, and any payload of at most 50 bytes, falls through to
the next anchor.  Second component: the URLs fetched, in order. -/
def scanLinks (cfg : Config) (env : ScanEnv) : List Anchor → Option String × List String
  | [] => (none, [])
  | a :: rest =>
    let href := a.href.getD ""
    if href ≠ "" ∧ containsSub ".csv" href then
      let csv_link := resolveLink env.pageUrl href
      match env.fetch csv_link with
      | HttpResult.raises => (none, [csv_link])
      | HttpResult.response status content =>
        if status = 200 ∧ 50 < content.length then
          (some (outPath cfg), [csv_link])
        else
          let r := scanLinks cfg env rest
          (r.1, csv_link :: r.2)
    else scanLinks cfg env rest

/-- src/main.py lines 266-298 (`scan_for_csv_links`). -/
def scan_for_csv_links (cfg : Config) (env : ScanEnv) : Option String × List String :=
  scanLinks cfg env env.anchors

/-! ## The acquisition pipeline: download_csv and process_urls -/

/-- The three acquisition strategies of src/main.py lines 377-395. -/
inductive Strategy where
  | directFetch : Strategy
  | uiClick : Strategy
  | linkScan : Strategy
deriving DecidableEq, Repr

/-- Per-page oracle bundle: one oracle per strategy. -/
structure PageEnv where
  directFetch : String → HttpResult
  clickEnv : ClickEnv
  scanEnv : ScanEnv

/-- src/main.py lines 377-395 (`download_csv`): direct fetch only when
the configured URL (read with `config.get('csv_download_url', '')`)
ends — lowercased — in `.csv`; then the UI-click strategy; then the
link scan; first non-`None` result wins.  The second component records
which strategies were evaluated, in evaluation order. -/
def download_csv (cfg : Config) (e : PageEnv) : Option String × List Strategy :=
  let isDirect := endsWithStr (lowerString (cfg.csv_download_url.getD "")) ".csv"
  let directTried : List Strategy := if isDirect then [Strategy.directFetch] else []
  let direct : Option String :=
    if isDirect then (direct_download_by_url cfg e.directFetch).1 else none
  match direct with
  | some r => (some r, directTried)
  | none =>
    match (download_csv_via_click cfg e.clickEnv).1 with
    | some r => (some r, directTried ++ [Strategy.uiClick])
    | none =>
      match (scan_for_csv_links cfg e.scanEnv).1 with
      | some r => (some r, directTried ++ [Strategy.uiClick, Strategy.linkScan])
      | none => (none, directTried ++ [Strategy.uiClick, Strategy.linkScan])

/-- Per-start-URL oracle: whether `page.goto(start_url)` raises (caught
at src/main.py line 412, continuing with the next URL), and the page
oracles used by `download_csv` on that page. -/
structure UrlEnv where
  gotoRaises : Bool
  page : PageEnv

/-- The `for i, start_url in enumerate(start_urls)` loop of
src/main.py lines 401-413: navigate (a raise skips to the next URL),
attempt `download_csv`, return its path on success.  The trace pairs
each visited page index with the strategies evaluated there (empty when
navigation raised). -/
def processLoop (cfg : Config) (envs : Nat → UrlEnv) :
    Nat → List String → Option String × List (Nat × List Strategy)
  | _, [] => (none, [])
  | i, _url :: rest =>
    if (envs i).gotoRaises then
      let r := processLoop cfg envs (i + 1) rest
      (r.1, (i, []) :: r.2)
    else
      match download_csv cfg (envs i).page with
      | (some p, st) => (some p, [(i, st)])
      | (none, st) =>
        let r := processLoop cfg envs (i + 1) rest
        (r.1, (i, st) :: r.2)

/-- src/main.py lines 397-415 (`process_urls`). -/
def process_urls (cfg : Config) (envs : Nat → UrlEnv) :
    Option String × List (Nat × List Strategy) :=
  processLoop cfg envs 0 cfg.start_urls

/-- Specification-side first-success semantics (spec section 4.4): walk
the candidates in order, return the first successful result, evaluate
nothing after it; the trace lists the candidates evaluated. -/
def firstSuccessTrace (f : α → Option β) : List α → Option β × List α
  | [] => (none, [])
  | a :: rest =>
    match f a with
    | some b => (some b, [a])
    | none =>
      let r := firstSuccessTrace f rest
      (r.1, a :: r.2)

/-- The strategy order `download_csv` uses: the direct fetch runs only
under its URL-extension guard, then UI click, then link scan. -/
def strategyOrder (cfg : Config) : List Strategy :=
  if endsWithStr (lowerString (cfg.csv_download_url.getD "")) ".csv" then
    [Strategy.directFetch, Strategy.uiClick, Strategy.linkScan]
  else [Strategy.uiClick, Strategy.linkScan]

/-- The result one strategy produces on one page. -/
def stratResult (cfg : Config) (e : PageEnv) : Strategy → Option String
  | Strategy.directFetch => (direct_download_by_url cfg e.directFetch).1
  | Strategy.uiClick => (download_csv_via_click cfg e.clickEnv).1
  | Strategy.linkScan => (scan_for_csv_links cfg e.scanEnv).1

/-- The result page `i` produces: `none` when navigation raised,
otherwise whatever `download_csv` returns there. -/
def pageResult (cfg : Config) (envs : Nat → UrlEnv) (i : Nat) : Option String :=
  if (envs i).gotoRaises then none else (download_csv cfg (envs i).page).1

/-! ## Session manager: cookies and the login-status probe -/

/-- Outcome of `actor.get_value(COOKIES_KEY)`: raise, no stored value,
or a stored cookie bag. -/
inductive KvGet where
  | raises : KvGet
  | absent : KvGet
  | found : KvGet
deriving DecidableEq, Repr

/-- Oracle for `load_cookies_into_context`. -/
structure CookieLoadEnv where
  get : KvGet
  addRaises : Bool

/-- src/main.py lines 119-129 (`load_cookies_into_context`): returns
`True` only when a cookie bag was present and `context.add_cookies`
completed; a raise anywhere is caught and the function returns
`False`. -/
def load_cookies_into_context (env : CookieLoadEnv) : Bool :=
  match env.get with
  | KvGet.raises => false
  | KvGet.absent => false
  | KvGet.found => if env.addRaises then false else true

/-- src/main.py lines 131-138 (`save_cookies_from_context`): reads the
context's cookies and writes them to the store; every failure is caught
and logged, so the call never raises.  The Boolean reports whether the
write happened (the caller ignores it, as the source returns `None`). -/
def save_cookies_from_context (readRaises setRaises : Bool) : Bool :=
  if readRaises then false else if setRaises then false else true

/-- src/main.py lines 314-329 (`check_login_status`): query the three
post-login markers in order; a raise anywhere is caught and yields
`False` (the queries after the raising one are not executed); otherwise
the result is whether any marker element exists. -/
def check_login_status (page : String → QueryResult) : Bool :=
  match page "text=\"Download\"" with
  | QueryResult.raises => false
  | r1 =>
    match page "text=\"Export\"" with
    | QueryResult.raises => false
    | r2 =>
      match page "text=\"Export CSV\"" with
      | QueryResult.raises => false
      | r3 => isElement r1 || isElement r2 || isElement r3

/-! ## Authentication flow -/

/-- src/main.py lines 52-60: `CONFIG['USERNAME_SELECTORS']`. -/
def USERNAME_SELECTORS : List String :=
  ["input[type=\"email\"]",
   "input[name=\"email\"]",
   "input[name=\"username\"]",
   "input[id*=\"email\"]",
   "input[name=\"__email\"]",
   "input[id*=\"login\"]",
   "#signin-email"]

/-- src/main.py lines 61-67: `CONFIG['PASSWORD_SELECTORS']`. -/
def PASSWORD_SELECTORS : List String :=
  ["input[type=\"password\"]",
   "input[name=\"password\"]",
   "input[id*=\"password\"]",
   "input[name=\"__password\"]",
   "#signin-password"]

/-- src/main.py lines 68-77: `CONFIG['LOGIN_BUTTON_SELECTORS']`. -/
def LOGIN_BUTTON_SELECTORS : List String :=
  ["button[type=\"submit\"]",
   "button:has-text(\"Sign in\")",
   "button:has-text(\"Sign In\")",
   "button:has-text(\"Log in\")",
   "button:has-text(\"Login\")",
   "input[type=\"submit\"]",
   ".signin-button",
   "#signin-submit"]

/-- The steps of `perform_login`, in source order: navigate to the
login URL, fill username, fill password, click submit, wait for network
quiescence. -/
inductive LoginStep where
  | navigate : LoginStep
  | fillUser : LoginStep
  | fillPass : LoginStep
  | submit : LoginStep
  | settle : LoginStep
deriving DecidableEq, Repr

/-- Oracle for one `perform_login` run: whether `page.goto` raises, the
page state seen by each selector cascade, and the outcomes of the four
fallback calls (each of which sits in its own `try/except`). -/
structure LoginEnv where
  gotoRaises : Bool
  userPage : String → QueryResult
  genericUserFillRaises : Bool
  passPage : String → QueryResult
  passInputsPresent : Bool
  passFallbackRaises : Bool
  submitPage : String → QueryResult
  signInFallbackRaises : Bool
  settleTimesOut : Bool

/-- src/main.py lines 331-375 (`perform_login`).  The whole body sits in
one `try`; within it, only `page.goto` (line 335) can raise an exception
that reaches the outer `except` — the username fallback fill (342-345),
the password fallback fill (351-356), the sign-in text-click fallback
(361-364) and the settle wait (367-370) each catch their own exceptions,
and `try_fill`/`try_click` never raise.  So the function returns
`(False, ...)` exactly when navigation raises; otherwise every later
step is attempted and it returns `True`.  The trace lists the steps
reached. -/
def perform_login (cfg : Config) (env : LoginEnv) : Bool × List LoginStep :=
  if env.gotoRaises then (false, [LoginStep.navigate])
  else
    let filled_user := try_fill env.userPage USERNAME_SELECTORS cfg.username
    let _user_fallback_ok := if filled_user then true else !env.genericUserFillRaises
    let filled_pass := try_fill env.passPage PASSWORD_SELECTORS cfg.password
    let _pass_fallback_ok :=
      if filled_pass then true
      else env.passInputsPresent && !env.passFallbackRaises
    let clicked_login := try_click env.submitPage LOGIN_BUTTON_SELECTORS
    let _sign_in_fallback_ok := if clicked_login then true else !env.signInFallbackRaises
    let _settled := !env.settleTimesOut
    (true,
     [LoginStep.navigate, LoginStep.fillUser, LoginStep.fillPass,
      LoginStep.submit, LoginStep.settle])

/-! ## Delivery stage -/

/-- Oracle for `upload_to_kv_store`: whether reading the artifact file
raises and whether either of the two `set_value` calls raises. -/
structure KvUploadEnv where
  readRaises : Bool
  setContentRaises : Bool
  setPointerRaises : Bool
deriving DecidableEq, Repr

/-- src/main.py lines 300-312 (`upload_to_kv_store`): read the file,
write the bytes under the output filename, write the filename under the
fixed pointer key, return `True`; any raise is caught and the function
returns `False`. -/
def upload_to_kv_store (env : KvUploadEnv) : Bool :=
  if env.readRaises then false
  else if env.setContentRaises then false
  else if env.setPointerRaises then false
  else true

/-- Oracle for the webhook POST. -/
structure WebhookEnv where
  post : HttpResult
deriving DecidableEq, Repr

/-- src/main.py lines 140-162 (`post_file_to_webhook`): an empty URL
returns `False` without a request; otherwise POST the file and return
whether the status lies in [200, 300); a raise is caught and the
function returns `False`. -/
def post_file_to_webhook (webhook_url : String) (env : WebhookEnv) : Bool :=
  if webhook_url = "" then false
  else
    match env.post with
    | HttpResult.raises => false
    | HttpResult.response status _ => decide (200 ≤ status ∧ status < 300)

/-! ## Run controller -/

/-- Oracle bundle for one flow attempt (one iteration of the retry loop
at src/main.py lines 451-547).  `launchRaises` models a raise (with its
message) in the foreign calls at lines 455-465 — `async_playwright`
start, `chromium.launch`, `new_context`, `new_page` — which are the
only calls of the attempt preamble outside an inner `try`.  The rest
are the oracles of the components the attempt invokes. -/
structure AttemptEnv where
  launchRaises : Option String
  cookieLoad : CookieLoadEnv
  probeGotoRaises : Bool
  probePage : String → QueryResult
  loginEnv : LoginEnv
  saveCookiesReadRaises : Bool
  saveCookiesSetRaises : Bool
  urlEnvs : Nat → UrlEnv
  kvEnv : KvUploadEnv
  webhookEnv : WebhookEnv
  fileSize : Option Nat

/-- Result of one attempt body: a success record ready to push, or the
message of the exception that ends the attempt. -/
inductive AttemptResult where
  | ok : RunRecord → AttemptResult
  | err : String → AttemptResult
deriving DecidableEq, Repr

/-- The attempt body, src/main.py lines 455-527.  Control flow read off
the source: cookie loading (461-463) is doubly protected and never
fatal; the login-status probe (469-475) visits the first start URL when
the list is non-empty, a raise there just leaves `logged_in` false; a
failed `perform_login` raises `RuntimeError('Login failed')` (480);
cookies are saved (non-fatally) after a fresh login when configured
(483-484); an empty `process_urls` result raises the
`RuntimeError` of line 489; otherwise the success record of lines
511-521 is built — note `kv_upload_success` (line 494) is computed and
never used again, and the record's `cookies_saved` field (line 518) is
the `save_cookies` configuration flag. -/
def runAttempt (cfg : Config) (env : AttemptEnv) : AttemptResult :=
  match env.launchRaises with
  | some m => AttemptResult.err m
  | none =>
    let _cookies_loaded := load_cookies_into_context env.cookieLoad
    let logged_in :=
      if cfg.start_urls.isEmpty then false
      else if env.probeGotoRaises then false
      else check_login_status env.probePage
    if !logged_in && !(perform_login cfg env.loginEnv).1 then
      AttemptResult.err "Login failed"
    else
      let _cookies_saved :=
        if !logged_in && cfg.save_cookies then
          save_cookies_from_context env.saveCookiesReadRaises env.saveCookiesSetRaises
        else true
      match (process_urls cfg env.urlEnvs).1 with
      | none =>
        AttemptResult.err
          "Unable to find or download CSV from any provided URL. Please verify start_urls and selectors."
      | some _out_path =>
        let _kv_upload_success := upload_to_kv_store env.kvEnv
        let webhook_sent :=
          if cfg.n8n_webhook_url ≠ "" then
            post_file_to_webhook cfg.n8n_webhook_url env.webhookEnv
          else false
        AttemptResult.ok
          (RunRecord.success cfg.csv_type cfg.download_filename env.fileSize
            "multiple_attempts" cfg.save_cookies webhook_sent cfg.job_id)

/-- Observable events of `main_logic`: the start of a flow attempt
(whose first action is the browser launch; all navigation and HTTP
activity of a run happens inside some attempt), an `asyncio.sleep`
with its duration, and an `Actor.push_data` with its record. -/
inductive MainEvent where
  | attemptStart : Nat → MainEvent
  | sleepEv : Nat → MainEvent
  | pushEv : RunRecord → MainEvent
deriving DecidableEq, Repr

/-- Outcome of `main_logic`: normal return, or an exception of the given
message propagating to the caller (the outer `except` at lines 549-552
re-raises). -/
inductive Outcome where
  | returned : Outcome
  | raised : String → Outcome
deriving DecidableEq, Repr

/-- The `for attempt in range(1, config['max_retries'] + 1)` loop of
src/main.py lines 451-547, iterated over the list of attempt numbers.
Per iteration: on success push the record and return (lines 524-527;
`Actor.push_data` is the dataset sink's fire-and-forget append and is
modelled as always succeeding);
on an attempt exception, when `attempt < max_retries` sleep
`5 * attempt` and continue (lines 533-536), otherwise push the failure
record carrying the attempt's error and re-raise it (lines 537-547).
If the list is empty (possible only when `max_retries ≤ 0`) the loop
body never runs and `main_logic` returns with no push. -/
def retryLoop (cfg : Config) (envs : Nat → AttemptEnv) : List Nat → Outcome × List MainEvent
  | [] => (Outcome.returned, [])
  | attempt :: rest =>
    match runAttempt cfg (envs attempt) with
    | AttemptResult.ok record =>
      (Outcome.returned, [MainEvent.attemptStart attempt, MainEvent.pushEv record])
    | AttemptResult.err msg =>
      if (attempt : Int) < cfg.max_retries then
        let r := retryLoop cfg envs rest
        (r.1, MainEvent.attemptStart attempt :: MainEvent.sleepEv (5 * attempt) :: r.2)
      else
        (Outcome.raised msg,
         [MainEvent.attemptStart attempt, MainEvent.pushEv (RunRecord.failed msg)])

/-- src/main.py lines 417-552 (`main_logic`): build the configuration,
fail fast with a `Missing credentials` failure record when the username
or password is empty (lines 442-445, Python falsiness of the empty
string), otherwise run the retry loop over attempts `1..max_retries`
(`range(1, max_retries + 1)` has `max(0, max_retries)` elements, which
is `Int.toNat`). -/
def main_logic (input : InputData) (envs : Nat → AttemptEnv) : Outcome × List MainEvent :=
  let config := buildConfig input
  if config.username = "" ∨ config.password = "" then
    (Outcome.returned, [MainEvent.pushEv (RunRecord.failed "Missing credentials")])
  else
    retryLoop config envs (List.range' 1 config.max_retries.toNat)

/-- Number of attempts started in a trace. -/
def attemptCount (tr : List MainEvent) : Nat :=
  (tr.filter fun e =>
    match e with
    | MainEvent.attemptStart _ => true
    | _ => false).length

/-- The sleep durations of a trace, in order. -/
def sleepList (tr : List MainEvent) : List Nat :=
  tr.filterMap fun e =>
    match e with
    | MainEvent.sleepEv n => some n
    | _ => none

/-- The records pushed to the dataset sink in a trace, in order. -/
def pushList (tr : List MainEvent) : List RunRecord :=
  tr.filterMap fun e =>
    match e with
    | MainEvent.pushEv r => some r
    | _ => none

/-- The trace `main_logic` produces when attempts `i, i+1, ...` (with
`n` attempts remaining) all fail: each non-final attempt is followed by
its `5 × attempt` backoff sleep, the final attempt is followed by the
single failure push and no sleep. -/
def failTrace (msg : Nat → String) : Nat → Nat → List MainEvent
  | _, 0 => []
  | i, 1 => [MainEvent.attemptStart i, MainEvent.pushEv (RunRecord.failed (msg i))]
  | i, n + 2 =>
    MainEvent.attemptStart i :: MainEvent.sleepEv (5 * i) ::
      failTrace msg (i + 1) (n + 1)

/-- A page on which nothing can be acquired: no downloads fire, no
anchors exist, every HTTP request raises. -/
def emptyPageEnv : PageEnv :=
  { directFetch := fun _ => HttpResult.raises
    clickEnv :=
      { present := fun _ => false
        clickRaises := fun _ => false
        events := []
        saveOk := false }
    scanEnv := { anchors := [], pageUrl := "", fetch := fun _ => HttpResult.raises } }

/-- A login environment in which navigation succeeds and every cascade
finds nothing. -/
def quietLoginEnv : LoginEnv :=
  { gotoRaises := false
    userPage := fun _ => QueryResult.absent
    genericUserFillRaises := false
    passPage := fun _ => QueryResult.absent
    passInputsPresent := false
    passFallbackRaises := false
    submitPage := fun _ => QueryResult.absent
    signInFallbackRaises := false
    settleTimesOut := false }

/-- An attempt environment whose browser launch raises with message
`boom`, so every attempt fails immediately. -/
def failingAttemptEnv : AttemptEnv :=
  { launchRaises := some "boom"
    cookieLoad := { get := KvGet.absent, addRaises := false }
    probeGotoRaises := false
    probePage := fun _ => QueryResult.absent
    loginEnv := quietLoginEnv
    saveCookiesReadRaises := false
    saveCookiesSetRaises := false
    urlEnvs := fun _ => { gotoRaises := true, page := emptyPageEnv }
    kvEnv := { readRaises := false, setContentRaises := false, setPointerRaises := false }
    webhookEnv := { post := HttpResult.raises }
    fileSize := none }

/-- Input with credentials and the default `max_retries` of 2. -/
def c1Input : InputData :=
  { indeed_username := some "u", indeed_password := some "p" }

/-- Input with a password but an empty (defaulted) username. -/
def c6Input : InputData := { indeed_password := some "p" }

/-- Input with credentials but `max_retries = 0`. -/
def c2Input : InputData :=
  { indeed_username := some "u", indeed_password := some "p", max_retries := some 0 }

/-- A page whose first UI download trigger is present and immediately
yields a download that saves successfully. -/
def successPageEnv : PageEnv :=
  { directFetch := fun _ => HttpResult.raises
    clickEnv :=
      { present := fun i => i == 0
        clickRaises := fun _ => false
        events := [{ cause := 0, arrival := 0 }]
        saveOk := true }
    scanEnv := { anchors := [], pageUrl := "", fetch := fun _ => HttpResult.raises } }

/-- An attempt that succeeds end to end — the probe sees a `Download`
marker, the first page yields the artifact — but whose key-value upload
fails (`set_value` read raises) while the webhook POST returns 204. -/
def c3AttemptEnv : AttemptEnv :=
  { launchRaises := none
    cookieLoad := { get := KvGet.absent, addRaises := false }
    probeGotoRaises := false
    probePage := fun s =>
      if s = "text=\"Download\"" then QueryResult.found false else QueryResult.absent
    loginEnv := quietLoginEnv
    saveCookiesReadRaises := false
    saveCookiesSetRaises := false
    urlEnvs := fun _ => { gotoRaises := false, page := successPageEnv }
    kvEnv := { readRaises := true, setContentRaises := false, setPointerRaises := false }
    webhookEnv := { post := HttpResult.response 204 [] }
    fileSize := some 123 }

/-- A key-value upload environment in which every operation succeeds. -/
def okKvEnv : KvUploadEnv :=
  { readRaises := false, setContentRaises := false, setPointerRaises := false }

/-- Credentials plus a configured webhook URL. -/
def c3Input : InputData :=
  { indeed_username := some "u", indeed_password := some "p",
    n8n_webhook_url := some "https://hooks.example/x" }

/-- A click environment for the cross-attribution scenario: every
trigger element is present, no click raises, and the single download
event is caused by trigger attempt 0 but delivered during trigger
attempt 1's wait window (a slow download). -/
def c8ClickEnv : ClickEnv :=
  { present := fun _ => true
    clickRaises := fun _ => false
    events := [{ cause := 0, arrival := 1 }]
    saveOk := true }

/-- Scan environment with two `.csv` anchors: the first link's payload
is 10 bytes (rejected), the second's is 60 bytes (accepted). -/
def c9ScanEnv : ScanEnv :=
  { anchors := [{ href := some "a.csv" }, { href := some "b.csv" }]
    pageUrl := "https://site"
    fetch := fun u =>
      if u = "https://site/a.csv" then HttpResult.response 200 (List.replicate 10 0)
      else HttpResult.response 200 (List.replicate 60 0) }

/-! ## Lemmas and claim theorems -/

lemma try_fill_trace_eq_cascadeSpec (page : String → QueryResult) (value : String) :
    ∀ selectors : List String,
      try_fill_trace page selectors value = cascadeSpec (fun s => isHit (page s)) selectors := by
  intro selectors
  induction selectors with
  | nil => rfl
  | cons s rest ih =>
    simp only [try_fill_trace, cascadeSpec, isHit, ih]
    cases h : page s with
    | raises => simp
    | absent => simp
    | found b => cases b <;> simp

lemma try_click_trace_eq_cascadeSpec (page : String → QueryResult) :
    ∀ selectors : List String,
      try_click_trace page selectors = cascadeSpec (fun s => isHit (page s)) selectors := by
  intro selectors
  induction selectors with
  | nil => rfl
  | cons s rest ih =>
    simp only [try_click_trace, cascadeSpec, isHit, ih]
    cases h : page s with
    | raises => simp
    | absent => simp
    | found b => cases b <;> simp

lemma try_fill_eq_trace (page : String → QueryResult) (value : String) :
    ∀ selectors : List String,
      try_fill page selectors value = (try_fill_trace page selectors value).1 := by
  intro selectors
  induction selectors with
  | nil => rfl
  | cons s rest ih =>
    simp only [try_fill, try_fill_trace]
    cases page s with
    | raises => simpa using ih
    | absent => simpa using ih
    | found b => cases b <;> simp [ih]

lemma try_click_eq_trace (page : String → QueryResult) :
    ∀ selectors : List String,
      try_click page selectors = (try_click_trace page selectors).1 := by
  intro selectors
  induction selectors with
  | nil => rfl
  | cons s rest ih =>
    simp only [try_click, try_click_trace]
    cases page s with
    | raises => simpa using ih
    | absent => simpa using ih
    | found b => cases b <;> simp [ih]

/-- C5: for every ordered selector list (including the empty one) and
every page state, `try_fill` and `try_click` examine selectors in list
order, return success at the first selector whose element exists and
whose fill/click completes without raising, swallow every per-selector
exception (a raising query or action is just a non-hit and the cascade
continues), and return failure — rather than raising — exactly when the
whole list is examined without a hit.  This is stated as: the
instrumented source functions coincide with `cascadeSpec`, the
first-hit/examine-in-order semantics written from the spec, and the
plain source functions are the Boolean projection of the instrumented
ones.  Totality of the Lean functions is the no-raise guarantee: every
oracle outcome, including the raising ones, is mapped to a result. -/
theorem C5_selector_cascade (pf pc : String → QueryResult) (selectors : List String)
    (value : String) :
    try_fill_trace pf selectors value = cascadeSpec (fun s => isHit (pf s)) selectors
    ∧ try_click_trace pc selectors = cascadeSpec (fun s => isHit (pc s)) selectors
    ∧ try_fill pf selectors value = (try_fill_trace pf selectors value).1
    ∧ try_click pc selectors = (try_click_trace pc selectors).1 :=
  ⟨try_fill_trace_eq_cascadeSpec pf value selectors,
   try_click_trace_eq_cascadeSpec pc selectors,
   try_fill_eq_trace pf value selectors,
   try_click_eq_trace pc selectors⟩

lemma firstSuccessTrace_cons (f : α → Option β) (a : α) (rest : List α) :
    firstSuccessTrace f (a :: rest) =
      match f a with
      | some b => (some b, [a])
      | none => ((firstSuccessTrace f rest).1, a :: (firstSuccessTrace f rest).2) := rfl

lemma download_csv_eq_firstSuccess (cfg : Config) (e : PageEnv) :
    download_csv cfg e = firstSuccessTrace (stratResult cfg e) (strategyOrder cfg) := by
  rw [download_csv.eq_def, strategyOrder]
  cases hg : endsWithStr (lowerString (cfg.csv_download_url.getD "")) ".csv" with
  | true =>
    simp only [if_true]
    cases hd : (direct_download_by_url cfg e.directFetch).1 with
    | some r =>
      rw [firstSuccessTrace_cons]
      simp only [stratResult, hd]
    | none =>
      cases hc : (download_csv_via_click cfg e.clickEnv).1 with
      | some r =>
        rw [firstSuccessTrace_cons, firstSuccessTrace_cons]
        simp only [stratResult, hd, hc, List.singleton_append]
      | none =>
        cases hs : (scan_for_csv_links cfg e.scanEnv).1 with
        | some r =>
          rw [firstSuccessTrace_cons, firstSuccessTrace_cons, firstSuccessTrace_cons]
          simp only [stratResult, hd, hc, hs, List.singleton_append]
        | none =>
          rw [firstSuccessTrace_cons, firstSuccessTrace_cons, firstSuccessTrace_cons]
          simp only [stratResult, hd, hc, hs, List.singleton_append, firstSuccessTrace]
  | false =>
    simp only [Bool.false_eq_true, if_false]
    cases hc : (download_csv_via_click cfg e.clickEnv).1 with
    | some r =>
      rw [firstSuccessTrace_cons]
      simp only [stratResult, hc, List.nil_append]
    | none =>
      cases hs : (scan_for_csv_links cfg e.scanEnv).1 with
      | some r =>
        rw [firstSuccessTrace_cons, firstSuccessTrace_cons]
        simp only [stratResult, hc, hs, List.nil_append]
      | none =>
        rw [firstSuccessTrace_cons, firstSuccessTrace_cons]
        simp only [stratResult, hc, hs, List.nil_append, firstSuccessTrace]

set_option maxHeartbeats 1600000 in
lemma processLoop_eq_firstSuccess (cfg : Config) (envs : Nat → UrlEnv) :
    ∀ (urls : List String) (i : Nat),
      (processLoop cfg envs i urls).1 =
        (firstSuccessTrace (pageResult cfg envs) (List.range' i urls.length)).1
      ∧ (processLoop cfg envs i urls).2.map Prod.fst =
        (firstSuccessTrace (pageResult cfg envs) (List.range' i urls.length)).2 := by
  intro urls
  induction urls with
  | nil => intro i; exact ⟨rfl, rfl⟩
  | cons u rest ih =>
    intro i
    rw [processLoop.eq_def, List.length_cons, List.range'_succ, firstSuccessTrace_cons]
    simp only []
    cases hgoto : (envs i).gotoRaises with
    | true =>
      have hpage : pageResult cfg envs i = none := by
        simp only [pageResult, hgoto, if_true]
      rw [hpage]
      simp only [if_true, List.map_cons]
      exact ⟨(ih (i + 1)).1, by rw [(ih (i + 1)).2]⟩
    | false =>
      simp only [Bool.false_eq_true, if_false]
      cases hd : download_csv cfg (envs i).page with
      | mk fst snd =>
        have hpage : pageResult cfg envs i = fst := by
          simp only [pageResult, hgoto, Bool.false_eq_true, if_false, hd]
        rw [hpage]
        cases fst with
        | some p =>
          simp only [List.map_cons, List.map_nil]
          exact ⟨trivial, trivial⟩
        | none =>
          simp only [List.map_cons]
          exact ⟨(ih (i + 1)).1, by rw [(ih (i + 1)).2]⟩

/-- C4: the acquisition pipeline iterates candidate pages in the outer
loop and the strategies — direct fetch (under its URL guard), UI-driven
download, link scan, in that order — in the inner loop, and both levels
have first-success/short-circuit semantics: `download_csv` equals the
first-success cascade over `strategyOrder`, and `process_urls` returns
the first page's successful artifact while visiting exactly the pages
up to and including that first success (`firstSuccessTrace` evaluates
nothing after a success, so no later page or strategy is evaluated). -/
theorem C4_pipeline_first_success (cfg : Config) (envs : Nat → UrlEnv) (e : PageEnv) :
    download_csv cfg e = firstSuccessTrace (stratResult cfg e) (strategyOrder cfg)
    ∧ (process_urls cfg envs).1 =
        (firstSuccessTrace (pageResult cfg envs) (List.range cfg.start_urls.length)).1
    ∧ (process_urls cfg envs).2.map Prod.fst =
        (firstSuccessTrace (pageResult cfg envs) (List.range cfg.start_urls.length)).2 := by
  refine ⟨download_csv_eq_firstSuccess cfg e, ?_, ?_⟩
  · rw [List.range_eq_range']
    exact (processLoop_eq_firstSuccess cfg envs cfg.start_urls 0).1
  · rw [List.range_eq_range']
    exact (processLoop_eq_firstSuccess cfg envs cfg.start_urls 0).2

lemma retryLoop_cons_ok (cfg : Config) (envs : Nat → AttemptEnv) (a : Nat)
    (rest : List Nat) (record : RunRecord)
    (h : runAttempt cfg (envs a) = AttemptResult.ok record) :
    retryLoop cfg envs (a :: rest) =
      (Outcome.returned, [MainEvent.attemptStart a, MainEvent.pushEv record]) := by
  rw [retryLoop.eq_def]
  simp only [h]

lemma retryLoop_cons_err (cfg : Config) (envs : Nat → AttemptEnv) (a : Nat)
    (rest : List Nat) (msg : String)
    (h : runAttempt cfg (envs a) = AttemptResult.err msg) :
    retryLoop cfg envs (a :: rest) =
      if (a : Int) < cfg.max_retries then
        ((retryLoop cfg envs rest).1,
         MainEvent.attemptStart a :: MainEvent.sleepEv (5 * a) :: (retryLoop cfg envs rest).2)
      else
        (Outcome.raised msg,
         [MainEvent.attemptStart a, MainEvent.pushEv (RunRecord.failed msg)]) := by
  rw [retryLoop.eq_def]
  simp only [h]

lemma retryLoop_allFail (cfg : Config) (envs : Nat → AttemptEnv) (msg : Nat → String)
    (hfail : ∀ i, runAttempt cfg (envs i) = AttemptResult.err (msg i)) :
    ∀ (n i : Nat), (i : Int) + n = cfg.max_retries + 1 → 1 ≤ n →
      retryLoop cfg envs (List.range' i n) =
        (Outcome.raised (msg (i + n - 1)), failTrace msg i n) := by
  intro n
  induction n with
  | zero => intro i _ h2; omega
  | succ k ih =>
    intro i h1 _
    cases k with
    | zero =>
      have hge : ¬ ((i : Int) < cfg.max_retries) := by omega
      rw [List.range'_one, retryLoop_cons_err cfg envs i [] (msg i) (hfail i), if_neg hge]
      rfl
    | succ k2 =>
      have hlt : (i : Int) < cfg.max_retries := by omega
      have hrec := ih (i + 1) (by push_cast; push_cast at h1; omega) (by omega)
      rw [List.range'_succ,
        retryLoop_cons_err cfg envs i (List.range' (i + 1) (k2 + 1)) (msg i) (hfail i),
        if_pos hlt, hrec]
      have hidx : i + 1 + (k2 + 1) - 1 = i + (k2 + 1 + 1) - 1 := by omega
      rw [hidx]
      rfl

lemma attemptCount_cons_start (a : Nat) (tr : List MainEvent) :
    attemptCount (MainEvent.attemptStart a :: tr) = attemptCount tr + 1 := rfl

lemma attemptCount_cons_sleep (n : Nat) (tr : List MainEvent) :
    attemptCount (MainEvent.sleepEv n :: tr) = attemptCount tr := rfl

lemma sleepList_cons_start (a : Nat) (tr : List MainEvent) :
    sleepList (MainEvent.attemptStart a :: tr) = sleepList tr := rfl

lemma sleepList_cons_sleep (n : Nat) (tr : List MainEvent) :
    sleepList (MainEvent.sleepEv n :: tr) = n :: sleepList tr := rfl

lemma pushList_cons_start (a : Nat) (tr : List MainEvent) :
    pushList (MainEvent.attemptStart a :: tr) = pushList tr := rfl

lemma pushList_cons_sleep (n : Nat) (tr : List MainEvent) :
    pushList (MainEvent.sleepEv n :: tr) = pushList tr := rfl

lemma pushList_cons_push (r : RunRecord) (tr : List MainEvent) :
    pushList (MainEvent.pushEv r :: tr) = r :: pushList tr := rfl

lemma failTrace_step (msg : Nat → String) (i k : Nat) :
    failTrace msg i (k + 2) =
      MainEvent.attemptStart i :: MainEvent.sleepEv (5 * i) ::
        failTrace msg (i + 1) (k + 1) := rfl

lemma failTrace_attemptCount (msg : Nat → String) :
    ∀ n i, attemptCount (failTrace msg i n) = n := by
  intro n
  induction n with
  | zero => intro i; rfl
  | succ k ih =>
    intro i
    cases k with
    | zero => rfl
    | succ k2 =>
      rw [failTrace_step, attemptCount_cons_start, attemptCount_cons_sleep, ih (i + 1)]

lemma failTrace_sleepList (msg : Nat → String) :
    ∀ n i, sleepList (failTrace msg i n) = (List.range' i (n - 1)).map (fun j => 5 * j) := by
  intro n
  induction n with
  | zero => intro i; rfl
  | succ k ih =>
    intro i
    cases k with
    | zero => rfl
    | succ k2 =>
      rw [failTrace_step, sleepList_cons_start, sleepList_cons_sleep, ih (i + 1)]
      have e2 : k2 + 1 + 1 - 1 = k2 + 1 := rfl
      rw [e2, List.range'_succ, List.map_cons]
      rfl

lemma failTrace_pushList (msg : Nat → String) :
    ∀ n i, 1 ≤ n → pushList (failTrace msg i n) = [RunRecord.failed (msg (i + n - 1))] := by
  intro n
  induction n with
  | zero => intro i h; omega
  | succ k ih =>
    intro i _
    cases k with
    | zero => rfl
    | succ k2 =>
      rw [failTrace_step, pushList_cons_start, pushList_cons_sleep, ih (i + 1) (by omega)]
      have hidx : i + 1 + (k2 + 1) - 1 = i + (k2 + 1 + 1) - 1 := by omega
      rw [hidx]

/-- C1: when credentials are present, `max_retries ≥ 1`, and every
attempt fails (attempt `i` failing with error `msg i`), `main_logic`
performs exactly `max_retries` attempts, its whole event trace is
`failTrace` — each non-final attempt followed by a `5 × attempt_number`
sleep and the final one by the failure push, so sleeps sit between
consecutive attempts and none follows the last — the sleep list is
`[5·1, …, 5·(max_retries−1)]`, exactly one record is pushed, it is the
failure record carrying the last attempt's error, and that same error
is re-raised to the caller. -/
theorem C1_retry_exhaustion (input : InputData) (envs : Nat → AttemptEnv)
    (msg : Nat → String)
    (hu : (buildConfig input).username ≠ "") (hp : (buildConfig input).password ≠ "")
    (hmr : 1 ≤ (buildConfig input).max_retries)
    (hfail : ∀ i, runAttempt (buildConfig input) (envs i) = AttemptResult.err (msg i)) :
    main_logic input envs =
      (Outcome.raised (msg (buildConfig input).max_retries.toNat),
       failTrace msg 1 (buildConfig input).max_retries.toNat)
    ∧ attemptCount (main_logic input envs).2 = (buildConfig input).max_retries.toNat
    ∧ sleepList (main_logic input envs).2 =
        (List.range' 1 ((buildConfig input).max_retries.toNat - 1)).map (fun j => 5 * j)
    ∧ pushList (main_logic input envs).2 =
        [RunRecord.failed (msg (buildConfig input).max_retries.toNat)] := by
  have hcred : ¬ ((buildConfig input).username = "" ∨ (buildConfig input).password = "") := by
    intro h; cases h with
    | inl h => exact hu h
    | inr h => exact hp h
  have hn : 1 ≤ (buildConfig input).max_retries.toNat := by omega
  have hmain : main_logic input envs =
      retryLoop (buildConfig input) envs
        (List.range' 1 (buildConfig input).max_retries.toNat) := by
    rw [main_logic, if_neg hcred]
  have hloop := retryLoop_allFail (buildConfig input) envs msg hfail
    (buildConfig input).max_retries.toNat 1 (by omega) hn
  have hidx : 1 + (buildConfig input).max_retries.toNat - 1 =
      (buildConfig input).max_retries.toNat := by omega
  rw [hidx] at hloop
  refine ⟨hmain.trans hloop, ?_, ?_, ?_⟩
  · rw [hmain, hloop]
    exact failTrace_attemptCount msg _ 1
  · rw [hmain, hloop]
    exact failTrace_sleepList msg _ 1
  · rw [hmain, hloop]
    rw [failTrace_pushList msg _ 1 hn, hidx]

/-- Witness for the retry-exhaustion theorem at the concrete input
`c1Input` (credentials present, the default `max_retries = 2`) with
every attempt failing on browser launch with message `boom`: two
attempts, one sleep of 5 units, one pushed record — the failure record
with the last error — and the error re-raised. -/
theorem C1_retry_exhaustion_witness :
    (buildConfig c1Input).username ≠ ""
    ∧ 1 ≤ (buildConfig c1Input).max_retries
    ∧ (∀ i : Nat, runAttempt (buildConfig c1Input) ((fun _ => failingAttemptEnv) i) =
        AttemptResult.err ((fun _ => "boom") i))
    ∧ main_logic c1Input (fun _ => failingAttemptEnv) =
        (Outcome.raised "boom", failTrace (fun _ => "boom") 1 2)
    ∧ sleepList (main_logic c1Input (fun _ => failingAttemptEnv)).2 = [5]
    ∧ pushList (main_logic c1Input (fun _ => failingAttemptEnv)).2 =
        [RunRecord.failed "boom"] := by
  have h := C1_retry_exhaustion c1Input (fun _ => failingAttemptEnv) (fun _ => "boom")
    (by decide) (by decide) (by decide) (fun i => rfl)
  exact ⟨by decide, by decide, fun i => rfl, h.1, h.2.2.1.trans (by decide),
    h.2.2.2.trans rfl⟩

/-- C6: when the configured username or password is the empty string
(Python falsiness at src/main.py line 442), `main_logic` emits exactly
the `Missing credentials` failure record and returns normally, with a
trace containing no attempt start (an attempt's first action is the
browser launch, and all navigation and HTTP activity happens inside
attempts), no sleep, and hence zero retry attempts. -/
theorem C6_missing_credentials (input : InputData) (envs : Nat → AttemptEnv)
    (h : (buildConfig input).username = "" ∨ (buildConfig input).password = "") :
    main_logic input envs =
      (Outcome.returned, [MainEvent.pushEv (RunRecord.failed "Missing credentials")])
    ∧ attemptCount (main_logic input envs).2 = 0
    ∧ (∀ i, MainEvent.attemptStart i ∉ (main_logic input envs).2)
    ∧ sleepList (main_logic input envs).2 = [] := by
  have hmain : main_logic input envs =
      (Outcome.returned, [MainEvent.pushEv (RunRecord.failed "Missing credentials")]) := by
    rw [main_logic, if_pos h]
  refine ⟨hmain, by rw [hmain]; rfl, ?_, by rw [hmain]; rfl⟩
  intro i hmem
  rw [hmain] at hmem
  simp only [List.mem_singleton] at hmem
  exact MainEvent.noConfusion hmem

/-- Witness for the missing-credentials theorem: with no username
configured, the run pushes the failure record and performs no
attempt. -/
theorem C6_missing_credentials_witness :
    ((buildConfig c6Input).username = "" ∨ (buildConfig c6Input).password = "")
    ∧ main_logic c6Input (fun _ => failingAttemptEnv) =
        (Outcome.returned, [MainEvent.pushEv (RunRecord.failed "Missing credentials")])
    ∧ attemptCount (main_logic c6Input (fun _ => failingAttemptEnv)).2 = 0 :=
  ⟨Or.inl rfl,
   (C6_missing_credentials c6Input (fun _ => failingAttemptEnv) (Or.inl rfl)).1,
   (C6_missing_credentials c6Input (fun _ => failingAttemptEnv) (Or.inl rfl)).2.1⟩

/-- C2 counterexample: a run with non-empty credentials and
`max_retries = 0` is accepted by `main_logic` (nothing validates the
retry count), yet `range(1, 0 + 1)` is empty, so the run returns
normally having pushed no RunRecord at all — refuting "exactly one
RunRecord per run, never zero". -/
theorem C2_zero_retries_counterexample :
    main_logic c2Input (fun _ => failingAttemptEnv) = (Outcome.returned, [])
    ∧ pushList (main_logic c2Input (fun _ => failingAttemptEnv)).2 = [] :=
  ⟨rfl, rfl⟩

lemma retryLoop_one_push (cfg : Config) (envs : Nat → AttemptEnv) :
    ∀ (n i : Nat), (i : Int) + n = cfg.max_retries + 1 → 1 ≤ n →
      (pushList (retryLoop cfg envs (List.range' i n)).2).length = 1 := by
  intro n
  induction n with
  | zero => intro i _ h; omega
  | succ k ih =>
    intro i h1 _
    cases k with
    | zero =>
      rw [List.range'_one]
      cases hr : runAttempt cfg (envs i) with
      | ok record => rw [retryLoop_cons_ok cfg envs i [] record hr]; rfl
      | err m =>
        have hge : ¬ ((i : Int) < cfg.max_retries) := by omega
        rw [retryLoop_cons_err cfg envs i [] m hr, if_neg hge]; rfl
    | succ k2 =>
      rw [List.range'_succ]
      cases hr : runAttempt cfg (envs i) with
      | ok record =>
        rw [retryLoop_cons_ok cfg envs i (List.range' (i + 1) (k2 + 1)) record hr]; rfl
      | err m =>
        have hlt : (i : Int) < cfg.max_retries := by omega
        rw [retryLoop_cons_err cfg envs i (List.range' (i + 1) (k2 + 1)) m hr, if_pos hlt]
        show (pushList (MainEvent.attemptStart i :: MainEvent.sleepEv (5 * i) ::
          (retryLoop cfg envs (List.range' (i + 1) (k2 + 1))).2)).length = 1
        rw [pushList_cons_start, pushList_cons_sleep]
        exact ih (i + 1) (by push_cast at h1 ⊢; omega) (by omega)

/-- C2 as amended: for every run whose `max_retries` is at least 1 (the
source default is 2), `main_logic` pushes exactly one RunRecord — on
the missing-credentials path, the success path, or the terminal-failure
path.  The restriction is forced by the counterexample: a run with
non-empty credentials and `max_retries ≤ 0` performs no attempt and
pushes no record. -/
theorem C2_one_record_per_run (input : InputData) (envs : Nat → AttemptEnv)
    (hmr : 1 ≤ (buildConfig input).max_retries) :
    (pushList (main_logic input envs).2).length = 1 := by
  by_cases hcred : (buildConfig input).username = "" ∨ (buildConfig input).password = ""
  · rw [main_logic, if_pos hcred]; rfl
  · rw [main_logic, if_neg hcred]
    exact retryLoop_one_push (buildConfig input) envs
      (buildConfig input).max_retries.toNat 1 (by omega) (by omega)

/-- Witness for the amended C2 theorem at `c1Input` (default
`max_retries = 2`, every attempt failing): exactly one record
pushed. -/
theorem C2_one_record_per_run_witness :
    1 ≤ (buildConfig c1Input).max_retries
    ∧ (pushList (main_logic c1Input (fun _ => failingAttemptEnv)).2).length = 1 :=
  ⟨by decide, C2_one_record_per_run c1Input (fun _ => failingAttemptEnv) (by decide)⟩

/-- Every success record has the shape built at src/main.py lines
511-521: its `cookies_saved` field is the `save_cookies` configuration
flag, its `webhook_sent` field is the webhook POST result (or `false`
with no webhook configured), and no field depends on
`kv_upload_success`. -/
lemma runAttempt_ok_shape (cfg : Config) (env : AttemptEnv) (r : RunRecord)
    (h : runAttempt cfg env = AttemptResult.ok r) :
    r = RunRecord.success cfg.csv_type cfg.download_filename env.fileSize
        "multiple_attempts" cfg.save_cookies
        (if cfg.n8n_webhook_url ≠ "" then
          post_file_to_webhook cfg.n8n_webhook_url env.webhookEnv
         else false) cfg.job_id := by
  rw [runAttempt.eq_def] at h
  simp only [] at h
  repeat' split at h
  all_goals
    first
      | exact AttemptResult.noConfusion h
      | (injection h with h2; exact h2.symm)
      | (injection h with h2
         rw [if_pos (by assumption)]
         exact h2.symm)
      | (injection h with h2
         rw [if_neg (by assumption)]
         exact h2.symm)

/-- The attempt result does not depend on the key-value-upload oracle:
`kv_upload_success` is computed at src/main.py line 494 and never used
again. -/
lemma runAttempt_kv_invariant (cfg : Config) (env : AttemptEnv) (kv2 : KvUploadEnv) :
    runAttempt cfg { env with kvEnv := kv2 } = runAttempt cfg env := by
  cases env
  rfl

/-- C3 as amended: in a run whose attempt acquires an artifact, with the
durable-storage write failing and the notification POST succeeding, the
emitted RunRecord has status Success and notification flag
`webhook_sent = true` — but it carries no storage flag at all: the
record is unchanged under any storage-write outcome (the upload result
is computed and discarded), and its `cookies_saved` field reports the
`save_cookies` configuration setting, not the storage result.  The
claim's "storage flag = false" is what the counterexample refutes. -/
theorem C3_delivery_record (cfg : Config) (env : AttemptEnv) (r : RunRecord)
    (hrun : runAttempt cfg env = AttemptResult.ok r)
    (hkv : upload_to_kv_store env.kvEnv = false)
    (hurl : cfg.n8n_webhook_url ≠ "")
    (hwb : post_file_to_webhook cfg.n8n_webhook_url env.webhookEnv = true) :
    r = RunRecord.success cfg.csv_type cfg.download_filename env.fileSize
        "multiple_attempts" cfg.save_cookies true cfg.job_id
    ∧ (∀ kv2 : KvUploadEnv, runAttempt cfg { env with kvEnv := kv2 } = AttemptResult.ok r) := by
  have h := runAttempt_ok_shape cfg env r hrun
  rw [if_pos hurl, hwb] at h
  exact ⟨h, fun kv2 => (runAttempt_kv_invariant cfg env kv2).trans hrun⟩

/-- C3 counterexample: a concrete run whose artifact is acquired, whose
storage write fails, and whose webhook POST succeeds.  The pushed
RunRecord reports `cookies_saved = true` (the `save_cookies` default)
and `webhook_sent = true`: no field of the record is `false`, and the
whole run output is identical when the storage write succeeds instead —
so the record does not report the storage flag as `false` as the claim
states. -/
theorem C3_counterexample :
    upload_to_kv_store c3AttemptEnv.kvEnv = false
    ∧ post_file_to_webhook (buildConfig c3Input).n8n_webhook_url c3AttemptEnv.webhookEnv = true
    ∧ main_logic c3Input (fun _ => c3AttemptEnv) =
        (Outcome.returned,
         [MainEvent.attemptStart 1,
          MainEvent.pushEv (RunRecord.success "candidates" "indeed-output.csv" (some 123)
            "multiple_attempts" true true "")])
    ∧ main_logic c3Input (fun _ => { c3AttemptEnv with kvEnv := okKvEnv }) =
        main_logic c3Input (fun _ => c3AttemptEnv) :=
  ⟨by decide, by decide, by decide, by decide⟩

/-- Witness for the amended C3 theorem at the concrete failing-storage,
succeeding-webhook run. -/
theorem C3_delivery_record_witness :
    runAttempt (buildConfig c3Input) c3AttemptEnv =
      AttemptResult.ok (RunRecord.success "candidates" "indeed-output.csv" (some 123)
        "multiple_attempts" true true "")
    ∧ upload_to_kv_store c3AttemptEnv.kvEnv = false
    ∧ (buildConfig c3Input).n8n_webhook_url ≠ ""
    ∧ (RunRecord.success "candidates" "indeed-output.csv" (some 123)
        "multiple_attempts" true true "" =
       RunRecord.success (buildConfig c3Input).csv_type
         (buildConfig c3Input).download_filename c3AttemptEnv.fileSize
         "multiple_attempts" (buildConfig c3Input).save_cookies true
         (buildConfig c3Input).job_id) :=
  ⟨by decide, by decide, by decide,
   (C3_delivery_record (buildConfig c3Input) c3AttemptEnv
     (RunRecord.success "candidates" "indeed-output.csv" (some 123)
       "multiple_attempts" true true "")
     (by decide) (by decide) (by decide) (by decide)).1⟩

/-- C7: `perform_login` returns failure exactly when an exception
escapes navigation (`page.goto` is the only statement of the body whose
exception reaches the outer `except`; in particular no exception can
escape the submission step, whose cascade and fallback both swallow
their errors) — so failure only arises from the navigation/submission
steps, never from field fills; when navigation succeeds the submit and
settle steps are always reached; and the returned Boolean is invariant
under every fill/submit/settle oracle, so failed username or password
fills (cascade and fallback both failing) cannot cause a `False`
result. -/
theorem C7_login_failure_only_navigation (cfg : Config) (env : LoginEnv) :
    ((perform_login cfg env).1 = false ↔ env.gotoRaises = true)
    ∧ (env.gotoRaises = false →
        LoginStep.submit ∈ (perform_login cfg env).2
        ∧ LoginStep.settle ∈ (perform_login cfg env).2)
    ∧ (∀ env2 : LoginEnv, env2.gotoRaises = env.gotoRaises →
        (perform_login cfg env2).1 = (perform_login cfg env).1) := by
  refine ⟨?_, ?_, ?_⟩
  · cases hg : env.gotoRaises with
    | true => simp [perform_login, hg]
    | false => simp [perform_login, hg]
  · intro hg
    rw [perform_login, if_neg (by simp [hg])]
    exact ⟨by simp, by simp⟩
  · intro env2 h2
    cases hg : env.gotoRaises with
    | true => rw [perform_login, perform_login, if_pos (h2.trans hg), if_pos hg]
    | false =>
      rw [perform_login, perform_login, if_neg (by simp [h2, hg]), if_neg (by simp [hg])]

/-- Witness for the login theorem: with navigation succeeding and every
selector cascade and fallback failing (`quietLoginEnv` finds no element
anywhere), `perform_login` still returns `True` and still reaches the
submit and settle steps. -/
theorem C7_login_failure_only_navigation_witness :
    quietLoginEnv.gotoRaises = false
    ∧ try_fill quietLoginEnv.userPage USERNAME_SELECTORS "u" = false
    ∧ try_fill quietLoginEnv.passPage PASSWORD_SELECTORS "p" = false
    ∧ try_click quietLoginEnv.submitPage LOGIN_BUTTON_SELECTORS = false
    ∧ (perform_login (buildConfig c1Input) quietLoginEnv).1 = true
    ∧ LoginStep.submit ∈ (perform_login (buildConfig c1Input) quietLoginEnv).2
    ∧ LoginStep.settle ∈ (perform_login (buildConfig c1Input) quietLoginEnv).2 := by
  have h := C7_login_failure_only_navigation (buildConfig c1Input) quietLoginEnv
  have hmem := h.2.1 rfl
  refine ⟨rfl, by decide, by decide, by decide, ?_, hmem.1, hmem.2⟩
  cases hres : (perform_login (buildConfig c1Input) quietLoginEnv).1 with
  | true => rfl
  | false => exact absurd (h.1.mp hres) (by decide)

/-- C8: the code evaluated at the failing input.  The only download
event is caused by trigger attempt 0 (`Download CSV`), yet
`download_csv_via_click` attributes it to trigger attempt 1
(`Export CSV`) and returns the artifact from that attempt: the
`page.on('download', ...)` listener is never unregistered and each
attempt's fresh `download_info` slot is written by whatever download
arrives during its wait window, so a download fired by an earlier
trigger is attributed to a later one — refuting the claimed per-attempt
listener scoping. -/
theorem C8_cross_attribution :
    (download_csv_via_click (buildConfig c1Input) c8ClickEnv).2 = some 1
    ∧ (download_csv_via_click (buildConfig c1Input) c8ClickEnv).1 =
        some "/tmp/indeed-output.csv"
    ∧ c8ClickEnv.events.all (fun e => e.cause == 0) = true
    ∧ c8ClickEnv.events.all (fun e => e.arrival == 1) = true :=
  ⟨by decide, by decide, by decide, by decide⟩

/-- C9: the link-scan acceptance threshold.  First conjunct: a candidate
anchor (non-empty href containing `.csv`) whose GET returns 200 with a
payload of at most 50 bytes is rejected — the scan's result is that of
scanning the remaining anchors, and the trace shows the rejected URL
was fetched before scanning continued.  Second conjunct: whenever the
scan accepts and writes a payload, some scanned anchor's GET returned
200 with strictly more than 50 bytes. -/
theorem C9_link_scan_threshold (cfg : Config) (env : ScanEnv) :
    (∀ (a : Anchor) (rest : List Anchor) (content : List Nat),
      (a.href.getD "" ≠ "" ∧ containsSub ".csv" (a.href.getD "") = true) →
      env.fetch (resolveLink env.pageUrl (a.href.getD "")) = HttpResult.response 200 content →
      content.length ≤ 50 →
      (scanLinks cfg env (a :: rest)).1 = (scanLinks cfg env rest).1
      ∧ (scanLinks cfg env (a :: rest)).2 =
          resolveLink env.pageUrl (a.href.getD "") :: (scanLinks cfg env rest).2)
    ∧ (∀ (anchors : List Anchor) (p : String),
        (scanLinks cfg env anchors).1 = some p →
        ∃ a ∈ anchors, ∃ content : List Nat,
          env.fetch (resolveLink env.pageUrl (a.href.getD "")) = HttpResult.response 200 content
          ∧ 50 < content.length) := by
  constructor
  · intro a rest content hcand hfetch hlen
    rw [scanLinks.eq_def]
    simp only []
    rw [if_pos hcand, hfetch]
    simp only []
    rw [if_neg (by omega)]
    exact ⟨rfl, rfl⟩
  · intro anchors
    induction anchors with
    | nil =>
      intro p hp
      rw [scanLinks] at hp
      exact Option.noConfusion hp
    | cons a rest ih =>
      intro p hp
      rw [scanLinks.eq_def] at hp
      simp only [] at hp
      by_cases hcand : (a.href.getD "" ≠ "" ∧ containsSub ".csv" (a.href.getD "") = true)
      · rw [if_pos hcand] at hp
        cases hf : env.fetch (resolveLink env.pageUrl (a.href.getD "")) with
        | raises =>
          rw [hf] at hp
          exact Option.noConfusion hp
        | response status content =>
          rw [hf] at hp
          simp only [] at hp
          by_cases hacc : (status = 200 ∧ 50 < content.length)
          · refine ⟨a, List.mem_cons_self a rest, content, ?_, hacc.2⟩
            rw [← hacc.1]
            exact hf
          · rw [if_neg hacc] at hp
            obtain ⟨a2, ha2, c2, hc2⟩ := ih p hp
            exact ⟨a2, List.mem_cons_of_mem a ha2, c2, hc2⟩
      · rw [if_neg hcand] at hp
        obtain ⟨a2, ha2, c2, hc2⟩ := ih p hp
        exact ⟨a2, List.mem_cons_of_mem a ha2, c2, hc2⟩

/-- Witness for the link-scan threshold theorem: the 10-byte payload of
the first link is rejected and scanning continues to the second link,
whose 60-byte payload is accepted and written out; both links were
fetched, in order. -/
theorem C9_link_scan_threshold_witness :
    (List.replicate 10 (0 : Nat)).length ≤ 50
    ∧ (scanLinks (buildConfig c1Input) c9ScanEnv
        ({ href := some "a.csv" } :: [{ href := some "b.csv" }])).1 =
      (scanLinks (buildConfig c1Input) c9ScanEnv [{ href := some "b.csv" }]).1
    ∧ scan_for_csv_links (buildConfig c1Input) c9ScanEnv =
        (some "/tmp/indeed-output.csv", ["https://site/a.csv", "https://site/b.csv"]) := by
  refine ⟨by decide, ?_, by decide⟩
  exact ((C9_link_scan_threshold (buildConfig c1Input) c9ScanEnv).1
    { href := some "a.csv" } [{ href := some "b.csv" }] (List.replicate 10 0)
    (by decide) (by decide) (by decide)).1

lemma download_csv_without_direct (cfg : Config) (e : PageEnv)
    (hnone : cfg.csv_download_url = none) :
    Strategy.directFetch ∉ (download_csv cfg e).2
    ∧ (download_csv cfg e).2.head? = some Strategy.uiClick := by
  have hdl := download_csv_eq_firstSuccess cfg e
  have ho : strategyOrder cfg = [Strategy.uiClick, Strategy.linkScan] := by
    rw [strategyOrder, hnone]
    rw [if_neg (by decide)]
  rw [ho] at hdl
  rw [hdl]
  cases hu : stratResult cfg e Strategy.uiClick with
  | some r =>
    rw [firstSuccessTrace_cons, hu]
    simp only []
    exact ⟨by decide, rfl⟩
  | none =>
    rw [firstSuccessTrace_cons, hu]
    cases hs : stratResult cfg e Strategy.linkScan with
    | some r =>
      rw [firstSuccessTrace_cons, hs]
      simp only []
      exact ⟨by decide, rfl⟩
    | none =>
      rw [firstSuccessTrace_cons, hs]
      simp only [firstSuccessTrace]
      exact ⟨by decide, rfl⟩

lemma processLoop_entry_traces (cfg : Config) (envs : Nat → UrlEnv) :
    ∀ (urls : List String) (i : Nat) (pr : Nat × List Strategy),
      pr ∈ (processLoop cfg envs i urls).2 →
      pr.2 = [] ∨ ∃ j, pr.2 = (download_csv cfg (envs j).page).2 := by
  intro urls
  induction urls with
  | nil =>
    intro i pr h
    rw [processLoop] at h
    exact absurd h (List.not_mem_nil pr)
  | cons u rest ih =>
    intro i pr h
    rw [processLoop.eq_def] at h
    simp only [] at h
    split at h
    · rcases List.mem_cons.mp h with h1 | h2
      · left; rw [h1]
      · exact ih (i + 1) pr h2
    · split at h
      next p st heq =>
        right
        refine ⟨i, ?_⟩
        rw [List.mem_singleton.mp h]
        exact (congrArg Prod.snd heq).symm
      next st heq =>
        rcases List.mem_cons.mp h with h1 | h2
        · right
          refine ⟨i, ?_⟩
          rw [h1]
          exact (congrArg Prod.snd heq).symm
        · exact ih (i + 1) pr h2

/-- C10: `main_logic` builds its configuration dictionary without a
`csv_download_url` key, so for every accepted input the direct-fetch
guard `config.get('csv_download_url', '').lower().endswith('.csv')` is
false: the direct-fetch strategy is excluded from the strategy order,
is never evaluated on any page (hence its HTTP GET is never issued),
and acquisition always begins with the UI-driven download strategy. -/
theorem C10_direct_fetch_unreachable (input : InputData) (e : PageEnv)
    (envs : Nat → UrlEnv) :
    (buildConfig input).csv_download_url = none
    ∧ endsWithStr (lowerString ((buildConfig input).csv_download_url.getD "")) ".csv" = false
    ∧ strategyOrder (buildConfig input) = [Strategy.uiClick, Strategy.linkScan]
    ∧ (download_csv (buildConfig input) e).2.head? = some Strategy.uiClick
    ∧ Strategy.directFetch ∉ (download_csv (buildConfig input) e).2
    ∧ (∀ pr ∈ (process_urls (buildConfig input) envs).2,
        Strategy.directFetch ∉ pr.2) := by
  have hmain := download_csv_without_direct (buildConfig input) e rfl
  have hn : (buildConfig input).csv_download_url = none := rfl
  refine ⟨rfl, ?_, ?_, hmain.2, hmain.1, ?_⟩
  · rw [hn]; decide
  · rw [strategyOrder, hn]
    rw [if_neg (by decide)]
  · intro pr hpr
    rcases processLoop_entry_traces (buildConfig input) envs
      (buildConfig input).start_urls 0 pr hpr with h | ⟨j, hj⟩
    · rw [h]
      exact List.not_mem_nil Strategy.directFetch
    · rw [hj]
      exact (download_csv_without_direct (buildConfig input) (envs j).page rfl).1

/-- Witness for the C10 theorem: at a concrete input and a one-page
environment, the pipeline's trace starts (and ends) with the UI-click
strategy and the direct fetch is nowhere in any visited page's trace. -/
theorem C10_direct_fetch_unreachable_witness :
    (buildConfig c1Input).csv_download_url = none
    ∧ (download_csv (buildConfig c1Input) successPageEnv).2.head? = some Strategy.uiClick
    ∧ Strategy.directFetch ∉ (download_csv (buildConfig c1Input) successPageEnv).2
    ∧ (0, [Strategy.uiClick]) ∈
        (process_urls (buildConfig c1Input)
          (fun _ => { gotoRaises := false, page := successPageEnv })).2
    ∧ Strategy.directFetch ∉ [Strategy.uiClick] := by
  have h := C10_direct_fetch_unreachable c1Input successPageEnv
    (fun _ => { gotoRaises := false, page := successPageEnv })
  refine ⟨h.1, h.2.2.2.1, h.2.2.2.2.1, by decide, ?_⟩
  exact h.2.2.2.2.2 (0, [Strategy.uiClick]) (by decide)

end IndeedCsv
